import Mathlib

/-!
Shallow embedding of the vacation-planning multi-agent orchestration core:
the shared tool layer (`src/shared_tools.py`) and the two workflow variants
(`src/vacation_scenario/langgraph_vacation.py`, the primary full state
machine, and `src/vacation_scenario/hybrid_vacation.py`, whose booker node
carries the freshness guard and the single-call truncation).

Machine conventions used throughout:
- stateful Python code (the sqlite database, the langgraph run loop) is
  embedded by explicit state passing;
- the reasoning oracle (an LLM endpoint) is an explicit function parameter;
- `random.randint(100000, 999999)` is embedded as an explicit `Nat`
  argument standing for the drawn value;
- code that can raise is embedded with `Except String`.
-/

namespace VacationCore

/-- Message roles, mirroring langchain SystemMessage / HumanMessage /
AIMessage / ToolMessage. -/
inductive Role
  | system
  | user
  | assistant
  | tool
deriving DecidableEq, Repr

/-- One tool call as carried on an assistant message: a tool name plus its
arguments (a Python dict of argument name to value, embedded as an
association list). -/
structure ToolCall where
  tname : String
  args : List (String × String)
deriving DecidableEq, Repr

/-- The dynamically-typed `tool_calls` attribute of a message. Normally it
is a Python list of tool-call dicts; the hybrid booker node however executes
`response.tool_calls = calls[0]`, after which the attribute holds a bare
tool-call dict. Both shapes are representable here because langchain message
objects do not validate attribute assignment. -/
inductive ToolCallsField
  | list (calls : List ToolCall)
  | single (call : ToolCall)
deriving DecidableEq, Repr

/-- A conversation message: role, content, optional producer name
(`name=` keyword of the langchain message constructors), and the
`tool_calls` attribute. -/
structure Message where
  role : Role
  content : String
  mname : Option String := none
  tool_calls : ToolCallsField := .list []
deriving DecidableEq, Repr

/-- HumanMessage with content only. -/
def Message.human (c : String) : Message := { role := .user, content := c }

/-- SystemMessage with content only. -/
def Message.sys (c : String) : Message := { role := .system, content := c }

/-- Python truthiness of the `tool_calls` attribute as tested by
`should_use_tools` (`if hasattr(last_message, 'tool_calls') and
last_message.tool_calls:`): an empty list is falsy, a non-empty list is
truthy, and a bare tool-call dict is truthy because a tool-call dict always
has keys (name, args, id). Messages without the attribute (Human/Tool
messages) are embedded with `.list []`, which yields the same `False`
outcome as the failed `hasattr` test. -/
def truthy : ToolCallsField → Bool
  | .list cs => !cs.isEmpty
  | .single _ => true

/-- A genuine reasoning-oracle reply (one assistant message from the chat
API): content plus a proper list of tool calls. The malformed
`ToolCallsField.single` shape can only be introduced later by the hybrid
booker truncation, never by the API itself. -/
structure OracleReply where
  content : String
  tool_calls : List ToolCall
deriving DecidableEq, Repr

/-- The AIMessage object a worker appends for an oracle reply: assistant
role, no producer name, the reply's tool calls as a list. -/
def replyMessage (r : OracleReply) : Message :=
  { role := .assistant, content := r.content, mname := none,
    tool_calls := .list r.tool_calls }

/-! ## Database layer (`src/shared_tools.py`) -/

/-- Booking type, the `Literal["flight", "hotel", "attraction"]` of
`BookingInput`. -/
inductive BookingType
  | flight
  | hotel
  | attraction
deriving DecidableEq, Repr

/-- A row of the `flights` table. Only the columns consulted by
`create_booking` (`flight_id`, `base_price`) are modelled; the remaining
columns are never read by the embedded operations. -/
structure Flight where
  flight_id : Int
  base_price : ℚ
deriving DecidableEq, Repr

/-- A row of the `hotels` table. Only `hotel_id` and `price_per_night` are
consulted by the embedded operations. -/
structure Hotel where
  hotel_id : Int
  price_per_night : ℚ
deriving DecidableEq, Repr

/-- A row of the `attractions` table; `create_booking` never reads this
table, so only the id column is modelled. -/
structure Attraction where
  attraction_id : Int
deriving DecidableEq, Repr

/-- A row of the `bookings` table as inserted by
`TravelDatabase.create_booking`. -/
structure BookingRow where
  booking_id : Int
  booking_type : BookingType
  item_id : Int
  customer_name : String
  customer_email : String
  status : String
  confirmation_number : String
  total_price : ℚ
  special_requests : Option String
deriving DecidableEq, Repr

/-- The state of the sqlite `TravelDatabase`: the four tables plus the next
AUTOINCREMENT id for `bookings`. -/
structure DB where
  flights : List Flight
  hotels : List Hotel
  attractions : List Attraction
  bookings : List BookingRow
  nextBookingId : Int
deriving DecidableEq, Repr

/-- The `BookingInput` pydantic model. -/
structure BookingInput where
  booking_type : BookingType
  item_id : Int
  customer_name : String
  customer_email : String
  special_requests : Option String := none
deriving DecidableEq, Repr

/-- The result dict of `create_booking`: either the success shape
`\x7bsuccess: True, booking_id, confirmation_number, total_price, status\x7d`
or the failure shape `\x7bsuccess: False, error\x7d`. -/
inductive BookingResult
  | ok (booking_id : Int) (confirmation_number : String) (total_price : ℚ)
      (status : String)
  | err (error : String)
deriving DecidableEq, Repr

/-- The `success` field of a booking-result dict. -/
def BookingResult.success : BookingResult → Bool
  | .ok .. => true
  | .err _ => false

/-- The `confirmation_number` field of a booking-result dict, when present. -/
def BookingResult.confirmation_number : BookingResult → Option String
  | .ok _ c _ _ => some c
  | .err _ => none

/-- Decimal digits of a natural number, least significant first, as the
characters Python's `str` would produce; `fuel` bounds the recursion depth
(any fuel of at least the digit count gives the digits). -/
def natDigitsRev (fuel n : Nat) : List Char :=
  match fuel with
  | 0 => []
  | fuel + 1 =>
    if n < 10 then [Nat.digitChar n]
    else Nat.digitChar (n % 10) :: natDigitsRev fuel (n / 10)

/-- Python `str(n)` for a natural number: its decimal representation. -/
def natStr (n : Nat) : String := ⟨(natDigitsRev (n + 1) n).reverse⟩

/-- The confirmation code built by `TravelDatabase.create_booking`,
embedding the f-string `f"CONF-\x7brandom.randint(100000, 999999)\x7d"`
with the drawn value passed explicitly. -/
def confString (rand : Nat) : String := "CONF-" ++ natStr rand

/-- The confirmation-code shape required by the spec: the five characters
`CONF-` followed by exactly six decimal digits. -/
def matchesConf (s : String) : Bool :=
  (s.data.take 5 == "CONF-".data) && (s.data.drop 5).length == 6 &&
    (s.data.drop 5).all Char.isDigit

/-- The price lookup of `TravelDatabase.create_booking` followed by
`fetchone`: `SELECT base_price FROM flights WHERE flight_id = ?` for a
flight booking, otherwise `SELECT price_per_night FROM hotels WHERE
hotel_id = ?`; `none` is the falsy `fetchone` result for an absent item. -/
def lookupPrice (db : DB) (b : BookingInput) : Option ℚ :=
  if b.booking_type = .flight then
    (db.flights.find? (fun f => f.flight_id == b.item_id)).map
      (fun f => f.base_price)
  else
    (db.hotels.find? (fun h => h.hotel_id == b.item_id)).map
      (fun h => h.price_per_night)

/-- The `bookings` row inserted by a successful
`TravelDatabase.create_booking` (with the sqlite defaults
`status = 'confirmed'` and the AUTOINCREMENT id). -/
def newBookingRow (b : BookingInput) (rand : Nat) (price : ℚ) (db : DB) :
    BookingRow :=
  { booking_id := db.nextBookingId, booking_type := b.booking_type,
    item_id := b.item_id, customer_name := b.customer_name,
    customer_email := b.customer_email, status := "confirmed",
    confirmation_number := confString rand, total_price := price,
    special_requests := b.special_requests }

/-- Embedding of `TravelDatabase.create_booking`: look up the price of the item via
`lookupPrice`, return `Item not found` if absent, else insert a `bookings`
row with a fresh confirmation code and return the success dict. The `rand`
argument is the value drawn by `random.randint(100000, 999999)`; the
UNIQUE constraint on `confirmation_number` is modelled as the sqlite error
branch. -/
def TravelDatabase.create_booking (b : BookingInput) (rand : Nat) (db : DB) :
    BookingResult × DB :=
  match lookupPrice db b with
  | none => (.err "Item not found", db)
  | some price =>
    if db.bookings.any (fun r => r.confirmation_number == confString rand) then
      (.err "UNIQUE constraint failed: bookings.confirmation_number", db)
    else
      (.ok db.nextBookingId (confString rand) price "confirmed",
       { db with
         bookings := db.bookings ++ [newBookingRow b rand price db],
         nextBookingId := db.nextBookingId + 1 })

/-- The module-level `create_booking` tool function: attraction bookings are
answered with a constant success dict without touching the database; flight
and hotel bookings are forwarded to `TravelDatabase.create_booking`. -/
def create_booking (booking_type : BookingType) (item_id : Int)
    (customer_name customer_email : String)
    (special_requests : Option String) (rand : Nat) (db : DB) :
    BookingResult × DB :=
  if booking_type = .attraction then
    (.ok 0 "CONF-123456" 0 "confirmed", db)
  else
    TravelDatabase.create_booking
      { booking_type := booking_type, item_id := item_id,
        customer_name := customer_name, customer_email := customer_email,
        special_requests := special_requests } rand db

/-- Whether an item id is present in the table corresponding to a booking
type. -/
def itemExists (db : DB) : BookingType → Int → Bool
  | .flight, i => db.flights.any (fun f => f.flight_id == i)
  | .hotel, i => db.hotels.any (fun h => h.hotel_id == i)
  | .attraction, i => db.attractions.any (fun a => a.attraction_id == i)

/-! ## SQL query layer (`src/shared_tools.py`) -/

/-- A result row of a SELECT query (a Python dict from column name to a
rendered value). -/
def SQLRow := List (String × String)
deriving instance DecidableEq for SQLRow

/-- The `SQLQueryResult` pydantic model. -/
structure SQLQueryResult where
  success : Bool
  rows : List SQLRow
  row_count : Nat
  error : Option String := none
deriving DecidableEq

/-- Characters stripped by Python `str.strip()` with no arguments (ASCII
whitespace; the exotic unicode whitespace Python also strips never matters
for the embedded guard). -/
def isPyWs (c : Char) : Bool :=
  c == ' ' || c == '\t' || c == '\n' || c == '\r' || c == '\x0b' || c == '\x0c'

/-- Python `s.strip()` on the character list of a string. -/
def pyStrip (l : List Char) : List Char :=
  ((l.dropWhile isPyWs).reverse.dropWhile isPyWs).reverse

/-- The guard `input.query.strip().upper().startswith("SELECT")` of
`TravelDatabase.execute_query`, on character lists: strip, uppercase each
character, compare the first six characters with `SELECT`. -/
def isSelectPrefixed (q : String) : Bool :=
  ((pyStrip q.data).map Char.toUpper).take 6 == "SELECT".data

/-- The sqlite execution engine behind `cursor.execute` for statements that
passed the SELECT guard, as an abstract collaborator: given the query text
and the database it either returns the fetched rows or raises a
`sqlite3.Error`, and yields the (possibly updated) database state. -/
def SqlEngine := String → DB → Except String (List SQLRow) × DB

/-- Embedding of `TravelDatabase.execute_query`: reject non-SELECT statements before
execution with the structured error result, otherwise run the statement on
the sqlite engine, capturing a `sqlite3.Error` into the structured error
shape. -/
def TravelDatabase.execute_query (engine : SqlEngine) (query : String)
    (db : DB) : SQLQueryResult × DB :=
  if !isSelectPrefixed query then
    ({ success := false, rows := [], row_count := 0,
       error := some "Only SELECT queries are allowed" }, db)
  else
    match engine query db with
    | (.ok rows, db') =>
      ({ success := true, rows := rows, row_count := rows.length,
         error := none }, db')
    | (.error e, db') =>
      ({ success := false, rows := [], row_count := 0, error := some e }, db')

/-- The module-level `query_database` tool function, delegating to the
singleton database's `execute_query`. -/
def query_database (engine : SqlEngine) (query : String) (db : DB) :
    SQLQueryResult × DB :=
  TravelDatabase.execute_query engine query db

/-! ## Graph state and delegation decisions (shared by both variants) -/

/-- The `VacationGraphState` TypedDict: the message log (merged by the `add_messages`
reducer, which appends the fresh messages the nodes return) plus the
routing field `next_agent`. -/
structure GState where
  messages : List Message
  next_agent : String
deriving DecidableEq, Repr

/-- The closed set of the `next_agent` field of `TaskDelegation`
(`Literal["search", "booker", "end"]`), enforced by the structured-output
validation. -/
inductive NextAgent
  | search
  | booker
  | done
deriving DecidableEq, Repr

/-- The string each `NextAgent` literal stores into the state. -/
def NextAgent.toStr : NextAgent → String
  | .search => "search"
  | .booker => "booker"
  | .done => "end"

/-- The `TaskDelegation` structured-output model (`verdict` only exists in
the langgraph variant and defaults to the empty string). -/
structure TaskDelegation where
  next_agent : NextAgent
  instruction : String
  reasoning : String
  verdict : String := ""
deriving DecidableEq, Repr

/-- System-prompt texts. The prompt contents are opaque to every embedded
operation (the oracle is an abstract function), so they are abbreviated
here; only their identities matter. -/
def TASKER_INIT_PROMPT : String :=
  "You are an experienced travel agency team leader. (initial delegation prompt)"

/-- Continuation variant of the orchestrator system prompt. -/
def TASKER_CONT_PROMPT : String :=
  "You are an experienced travel agency team leader. (continuation prompt)"

/-- Search-worker base system prompt. -/
def SEARCH_PROMPT : String :=
  "You are a travel agent. (search prompt)"

/-- Search-worker prompt after a web search tool result. -/
def RETURN_WEB_SEARCH_PROMPT : String :=
  "You are a travel agent. (post web search prompt)"

/-- Search-worker prompt after a database query tool result. -/
def RETURN_QUERY_DATABASE_PROMPT : String :=
  "You are a travel agent. (post database query prompt)"

/-- Booker-worker system prompt. -/
def BOOKER_PROMPT : String :=
  "You are a travel agent. (booker prompt)"

/-- The orchestrator system prompt chosen by `task_node`: the initial
variant when the log holds at most one message, the continuation variant
otherwise. -/
def taskPromptFor (messages : List Message) : String :=
  if messages.length ≤ 1 then TASKER_INIT_PROMPT else TASKER_CONT_PROMPT

/-! ## The langgraph variant (`src/vacation_scenario/langgraph_vacation.py`) -/

namespace LG

/-- Nodes of the compiled state graph, plus the terminal END. -/
inductive Node
  | task
  | search
  | booker
  | search_tools
  | booker_tools
  | END
deriving DecidableEq, Repr

/-- The external collaborators of one run: the structured-output
orchestrator oracle (whose parse/validation failure is the `Except.error`
case, carrying the raised exception text), the two worker oracles, and
tool execution (langgraph's `ToolNode` captures tool-level failures into
the returned message content, so it is total). -/
structure Oracles where
  task : List Message → Except String TaskDelegation
  search : List Message → OracleReply
  booker : List Message → OracleReply
  runTool : ToolCall → String

/-- Embedding of `task_node`: prepend the orchestrator system prompt, invoke the
structured-output oracle, and on success append the instruction message
tagged `task_orchestrator` (a HumanMessage in this variant) and store the
decision's `next_agent`. A parse/validation failure propagates as the
raised exception: the node has no handler, no retry, and no error
translation. -/
def task_node (o : Oracles) (s : GState) : Except String GState :=
  match o.task (Message.sys (taskPromptFor s.messages) :: s.messages) with
  | .error e => .error e
  | .ok d =>
    .ok { messages := s.messages ++
            [{ role := .user, content := d.instruction,
               mname := some "task_orchestrator", tool_calls := .list [] }],
          next_agent := d.next_agent.toStr }

/-- Embedding of `search_node`: choose the system prompt from the tool messages present
in the log, invoke the search oracle, and append its reply as-is. -/
def search_node (o : Oracles) (s : GState) : GState :=
  let tool_messages := s.messages.filter (fun m => m.role == Role.tool)
  let prompt :=
    if tool_messages.any (fun m => m.mname == some "web_search") then
      RETURN_WEB_SEARCH_PROMPT
    else if tool_messages.any (fun m => m.mname == some "query_database") then
      RETURN_QUERY_DATABASE_PROMPT
    else SEARCH_PROMPT
  let r := o.search (Message.sys prompt :: s.messages)
  { s with messages := s.messages ++ [replyMessage r] }

/-- Embedding of `booker_node` of the langgraph variant: prepend the booker prompt,
invoke the booking oracle, append its reply as-is (no freshness guard and
no truncation in this variant). -/
def booker_node (o : Oracles) (s : GState) : GState :=
  let r := o.booker (Message.sys BOOKER_PROMPT :: s.messages)
  { s with messages := s.messages ++ [replyMessage r] }

/-- langgraph's `ToolNode` on the latest message: iterate its `tool_calls`
and append one ToolMessage per call, named after the tool. When the
attribute holds a bare tool-call dict instead of a list (the hybrid
truncation artefact), Python iterates the dict's keys and indexes each key
string, raising a TypeError; an empty log would raise an IndexError at
`state["messages"][-1]`. -/
def tool_node (runTool : ToolCall → String) (s : GState) :
    Except String GState :=
  match s.messages.getLast? with
  | none => .error "IndexError: list index out of range"
  | some m =>
    match m.tool_calls with
    | .list cs =>
      .ok { s with messages := s.messages ++ cs.map (fun c =>
              { role := .tool, content := runTool c, mname := some c.tname,
                tool_calls := .list [] }) }
    | .single _ => .error "TypeError: string indices must be integers"

/-- Embedding of `should_use_tools`: Python truthiness of the latest message's
`tool_calls` attribute (see `truthy`); the empty-log case would raise in
Python and is unreachable in a run. -/
def should_use_tools (messages : List Message) : Bool :=
  match messages.getLast? with
  | some m => truthy m.tool_calls
  | none => false

/-- Embedding of `task_router`: dispatch on the stored `next_agent` (anything other than
`search` / `booker`, including the `end` literal, goes to END). -/
def task_router (s : GState) : Node :=
  if s.next_agent == "search" then .search
  else if s.next_agent == "booker" then .booker
  else .END

/-- The edges added by `build_graph`, as a function from the node that just
ran (and the updated state) to the next node. -/
def nextNode : Node → GState → Node
  | .task, s => task_router s
  | .search, s => if should_use_tools s.messages then .search_tools else .task
  | .booker, s => if should_use_tools s.messages then .booker_tools else .task
  | .search_tools, _ => .search
  | .booker_tools, _ => .booker
  | .END, _ => .END

/-- Execute one node on the state. Only `task_node` (structured-output
parse failure) and `tool_node` (malformed `tool_calls`) can raise; `END`
never executes. -/
def execNode (o : Oracles) : Node → GState → Except String GState
  | .task, s => task_node o s
  | .search, s => .ok (search_node o s)
  | .booker, s => .ok (booker_node o s)
  | .search_tools, s => tool_node o.runTool s
  | .booker_tools, s => tool_node o.runTool s
  | .END, s => .ok s

/-- A run-level failure: the recursion limit (`GraphRecursionError`, the
step budget) or an exception propagating out of a node. -/
inductive RunError
  | stepBudget
  | nodeException (e : String)
deriving DecidableEq, Repr

/-- The observable outcome of a run, with the number of node executions
("super-steps") performed. -/
inductive Outcome
  | done (s : GState) (steps : Nat)
  | failed (e : RunError) (steps : Nat)
deriving DecidableEq, Repr

/-- The langgraph run loop under `recursion_limit`: starting from the entry
node, execute up to `fuel` node steps; reaching END yields the final state,
exhausting the budget before END raises the step-budget error, and an
exception from a node aborts the run. `steps` counts the node executions
already performed. -/
def runAux (o : Oracles) : Nat → Node → GState → Nat → Outcome
  | _, .END, s, steps => .done s steps
  | 0, _, _, steps => .failed .stepBudget steps
  | fuel + 1, n, s, steps =>
    match execNode o n s with
    | .error e => .failed (.nodeException e) steps
    | .ok s' => runAux o fuel (nextNode n s') s' (steps + 1)

/-- The driver in `main`: stream the compiled graph from the initial state
`\x7b"messages": [HumanMessage(question)]\x7d` with `recursion_limit: 50`,
entry point `task`. The absent `next_agent` key reads as `"end"` through
`state.get("next_agent", "end")` and is written by `task` before it is
ever consulted. -/
def run (o : Oracles) (limit : Nat) (question : String) : Outcome :=
  runAux o limit .task { messages := [Message.human question], next_agent := "end" } 0

end LG

/-! ## The hybrid variant (`src/vacation_scenario/hybrid_vacation.py`) -/

namespace Hybrid

/-- Nodes of the hybrid graph: it has no `search_tools` node (its search
worker runs a crewai agent internally) but the same `task`, `search`,
`booker`, `booker_tools` nodes and END. -/
inductive HNode
  | task
  | search
  | booker
  | booker_tools
  | END
deriving DecidableEq, Repr

/-- The corrective message the hybrid booker appends when the freshness
guard fails: content fixed, producer `booker`, no tool calls. -/
def correctiveMessage : Message :=
  { role := .assistant,
    content := "I couldn\x27t complete the given task, please rethink and try again",
    mname := some "booker", tool_calls := .list [] }

/-- The trailing note appended to the content when more than one tool call
was requested. -/
def TRUNCATION_NOTE : String :=
  "\n\nFYI only the first tool call was used. The model accepts only one tool call at a time."

/-- The freshness-guard test of the hybrid `booker_node`:
`"task_orchestrator" in [m.name for m in messages[-8:]]`. Python's
`messages[-8:]` is the whole list when it is shorter than 8, which is
exactly `List.drop (length - 8)` with truncated subtraction. -/
def hasRecentOrch (messages : List Message) : Bool :=
  (messages.drop (messages.length - 8)).any
    (fun m => m.mname == some "task_orchestrator")

/-- The hybrid `booker_node`, returning the messages it appends. If the
freshness guard fails it returns the corrective message without invoking
the oracle. Otherwise it invokes the booking oracle; with no tool calls it
appends `HumanMessage("No tool calls found")`, with exactly one it appends
the reply as-is, and with more than one it executes
`response.tool_calls = calls[0]` — storing the bare first call, not a
one-element list — and appends the truncation note to the content. (The
`try: calls = response.tool_calls except:` guard never fires for an
AIMessage, which always has the attribute.) -/
def booker_node (oracle : List Message → OracleReply)
    (messages : List Message) : List Message :=
  if !hasRecentOrch messages then [correctiveMessage]
  else
    let r := oracle (Message.sys BOOKER_PROMPT :: messages)
    match r.tool_calls with
    | [] => [Message.human "No tool calls found"]
    | [_] => [replyMessage r]
    | c :: _ :: _ =>
      [{ role := .assistant, content := r.content ++ TRUNCATION_NOTE,
         mname := none, tool_calls := .single c }]

/-- The hybrid `search_node`, returning the messages it appends: it reads
`messages[-1].content` (raising on an empty log), runs the crewai searcher
agent on it, and appends the raw reply tagged `searcher`. The crewai reply
is plain text: the appended AIMessage never carries tool calls. -/
def search_node (searcher : String → String) (messages : List Message) :
    Except String (List Message) :=
  match messages.getLast? with
  | none => .error "No messages found"
  | some m =>
    .ok [{ role := .assistant, content := searcher m.content,
           mname := some "searcher", tool_calls := .list [] }]

/-- The hybrid `task_router` (identical text to the langgraph one). -/
def task_router (s : GState) : HNode :=
  if s.next_agent == "search" then .search
  else if s.next_agent == "booker" then .booker
  else .END

/-- The edges added by the hybrid `build_graph`: `search → task` is an
unconditional edge (there is no search tool node), the booker edges are
conditional on `should_use_tools` exactly as in the langgraph variant. -/
def nextNode : HNode → GState → HNode
  | .task, s => task_router s
  | .search, _ => .task
  | .booker, s => if LG.should_use_tools s.messages then .booker_tools else .task
  | .booker_tools, _ => .booker
  | .END, _ => .END

end Hybrid

/-! ## Concrete sample inputs used by the closed theorems below -/

namespace Examples

/-- A database with all tables empty. -/
def emptyDB : DB := ⟨[], [], [], [], 1⟩

/-- A database holding a single flight with id 1. -/
def oneFlightDB : DB := ⟨[⟨1, 300⟩], [], [], [], 1⟩

/-- A recent orchestrator instruction message. -/
def orchMsg : Message :=
  { role := .user, content := "book flight 1",
    mname := some "task_orchestrator", tool_calls := .list [] }

/-- First of three tool calls in a multi-call reply. -/
def tc1 : ToolCall := ⟨"create_booking", [("booking_type", "flight"), ("item_id", "1")]⟩

/-- Second of three tool calls in a multi-call reply. -/
def tc2 : ToolCall := ⟨"create_booking", [("booking_type", "hotel"), ("item_id", "2")]⟩

/-- Third of three tool calls in a multi-call reply. -/
def tc3 : ToolCall := ⟨"create_booking", [("booking_type", "attraction"), ("item_id", "3")]⟩

/-- A booking-oracle reply requesting three tool calls. -/
def reply3 : OracleReply := ⟨"Booking all three items", [tc1, tc2, tc3]⟩

/-- A booking oracle that always requests the three tool calls. -/
def bookerOracle3 : List Message → OracleReply := fun _ => reply3

/-- A booking oracle that never requests tool calls. -/
def bookerOracle0 : List Message → OracleReply := fun _ => ⟨"nothing to do", []⟩

/-- The message the hybrid booker appends after truncating `reply3`: the
content carries the trailing note, and `tool_calls` holds the bare first
call (the `response.tool_calls = calls[0]` assignment). -/
def truncatedMsg : Message :=
  { role := .assistant, content := "Booking all three items" ++ Hybrid.TRUNCATION_NOTE,
    mname := none, tool_calls := .single tc1 }

/-- A log whose last 8 messages contain an orchestrator instruction. -/
def msgsWithOrch : List Message := [Message.human "plan a trip", orchMsg]

/-- A log with no orchestrator-produced message at all. -/
def msgsNoOrch : List Message := [Message.human "book the flight"]

/-- A concrete tool runner. -/
def runTool0 : ToolCall → String := fun _ => "tool output"

/-- A concrete sqlite engine that returns no rows. -/
def sqlEngine0 : SqlEngine := fun _ db => (.ok [], db)

/-- A delegation decision that chooses the search worker. -/
def dSearch : TaskDelegation := ⟨.search, "search for flights", "needs data", ""⟩

/-- A delegation decision that ends the run. -/
def dDone : TaskDelegation := ⟨.done, "all done", "complete", ""⟩

/-- Oracles whose orchestrator always delegates to search and whose search
worker never calls tools. -/
def searchOracles : LG.Oracles :=
  { task := fun _ => .ok dSearch,
    search := fun _ => ⟨"search result", []⟩,
    booker := fun _ => ⟨"booked", []⟩,
    runTool := runTool0 }

/-- The exact message list `task_node` sends to the structured-output
oracle on the first turn of a run started with "plan a trip". -/
def initPromptMsgs : List Message :=
  [Message.sys (taskPromptFor [Message.human "plan a trip"]),
   Message.human "plan a trip"]

/-- Oracles whose orchestrator reply fails structured-output parsing on
exactly the initial invocation and parses on every other input: a retry
with a corrective prompt (any different message list) would succeed. -/
def failingOracles : LG.Oracles :=
  { task := fun ms => if ms = initPromptMsgs then .error "Invalid json output" else .ok dDone,
    search := fun _ => ⟨"search result", []⟩,
    booker := fun _ => ⟨"booked", []⟩,
    runTool := runTool0 }

/-- A state whose latest message carries no tool calls. -/
def stateNoCalls : GState :=
  { messages := [Message.human "hello"], next_agent := "search" }

/-- A state whose latest message carries one tool call. -/
def stateWithCalls : GState :=
  { messages := [Message.human "hello",
                 { role := .assistant, content := "", mname := none,
                   tool_calls := .list [tc1] }],
    next_agent := "booker" }

end Examples

/-! ## Theorems -/

/-- C5: for every query string that does not begin (after stripping
whitespace, case-insensitively) with SELECT, `query_database` returns the
structured value with success false, no rows, row count 0 and error
"Only SELECT queries are allowed", for every sqlite engine (so the
statement is never executed), and the database state is returned
unchanged. -/
theorem query_database_rejects_non_select (q : String) (db : DB)
    (h : isSelectPrefixed q = false) (engine : SqlEngine) :
    query_database engine q db =
      ({ success := false, rows := [], row_count := 0,
         error := some "Only SELECT queries are allowed" }, db) := by
  simp [query_database, TravelDatabase.execute_query, h]

/-- Witness for C5 at the spec's concrete input "DROP TABLE flights". -/
theorem query_database_rejects_non_select_witness :
    isSelectPrefixed "DROP TABLE flights" = false ∧
    query_database Examples.sqlEngine0 "DROP TABLE flights" Examples.emptyDB =
      ({ success := false, rows := [], row_count := 0,
         error := some "Only SELECT queries are allowed" }, Examples.emptyDB) :=
  ⟨by decide,
   query_database_rejects_non_select "DROP TABLE flights" Examples.emptyDB
     (by decide) Examples.sqlEngine0⟩

/-- C10: for every item id (existing or not), an attraction booking returns
the constant success dict with booking id 0, confirmation number
CONF-123456, total price 0 and status confirmed, and the database is
returned untouched (no bookings row, no table read): the result does not
depend on the database argument at all. -/
theorem create_booking_attraction_constant (item_id : Int)
    (customer_name customer_email : String)
    (special_requests : Option String) (rand : Nat) (db : DB) :
    create_booking .attraction item_id customer_name customer_email
      special_requests rand db =
      (.ok 0 "CONF-123456" 0 "confirmed", db) := by
  simp [create_booking]

/-- C3 counterexample: an attraction booking whose item id is absent from
the attractions table nonetheless returns success true (the claimed result
has success false with error "Item not found"), so the claim fails for
booking type attraction. -/
theorem create_booking_attraction_missing_item_succeeds :
    Examples.emptyDB.attractions = [] ∧
    (create_booking .attraction 999999 "Jane Doe" "jane@example.com"
        none 111111 Examples.emptyDB).1.success = true :=
  ⟨rfl, rfl⟩

/-- C3 (amended): for flight and hotel booking requests whose item id is
absent from the corresponding table, `create_booking` returns the
structured failure with error "Item not found" and the database — hence
the bookings table — is unchanged. -/
theorem create_booking_missing_item (bt : BookingType) (item_id : Int)
    (nm em : String) (sr : Option String) (rand : Nat) (db : DB)
    (hbt : bt = .flight ∨ bt = .hotel)
    (habs : itemExists db bt item_id = false) :
    create_booking bt item_id nm em sr rand db = (.err "Item not found", db) := by
  rcases hbt with h | h <;> subst h
  · have hfind : db.flights.find? (fun f => f.flight_id == item_id) = none := by
      rw [List.find?_eq_none]
      intro x hx
      simp only [itemExists, List.any_eq_false] at habs
      exact habs x hx
    simp [create_booking, TravelDatabase.create_booking, lookupPrice, hfind]
  · have hfind : db.hotels.find? (fun h => h.hotel_id == item_id) = none := by
      rw [List.find?_eq_none]
      intro x hx
      simp only [itemExists, List.any_eq_false] at habs
      exact habs x hx
    simp [create_booking, TravelDatabase.create_booking, lookupPrice, hfind]

/-- Witness for C3 (amended): a flight booking with id 999999 against a
database with no flights. -/
theorem create_booking_missing_item_witness :
    itemExists Examples.emptyDB .flight 999999 = false ∧
    create_booking .flight 999999 "Jane Doe" "jane@example.com" none 111111
        Examples.emptyDB = (.err "Item not found", Examples.emptyDB) :=
  ⟨by decide,
   create_booking_missing_item .flight 999999 "Jane Doe" "jane@example.com"
     none 111111 Examples.emptyDB (Or.inl rfl) (by decide)⟩

/-- Every character produced by `natDigitsRev` is a decimal digit. -/
theorem natDigitsRev_all_digits (fuel : Nat) :
    ∀ n c, c ∈ natDigitsRev fuel n → c.isDigit = true := by
  have hd : ∀ d, d < 10 → (Nat.digitChar d).isDigit = true := by decide
  induction fuel with
  | zero => intro n c hc; simp [natDigitsRev] at hc
  | succ fuel ih =>
    intro n c hc
    rw [natDigitsRev] at hc
    by_cases h10 : n < 10
    · rw [if_pos h10] at hc
      simp at hc
      subst hc
      exact hd n h10
    · rw [if_neg h10] at hc
      rcases List.mem_cons.mp hc with h | h
      · subst h
        exact hd _ (Nat.mod_lt _ (by omega))
      · exact ih (n / 10) c h

/-- With enough fuel, a number with `k + 1` decimal digits yields a digit
list of length `k + 1`. -/
theorem natDigitsRev_length (k : Nat) :
    ∀ fuel n, 10 ^ k ≤ n → n < 10 ^ (k + 1) → k + 1 ≤ fuel →
      (natDigitsRev fuel n).length = k + 1 := by
  induction k with
  | zero =>
    intro fuel n h1 h2 hf
    obtain ⟨f, rfl⟩ : ∃ f, fuel = f + 1 := ⟨fuel - 1, by omega⟩
    rw [natDigitsRev, if_pos (by simpa using h2)]
    rfl
  | succ k ih =>
    intro fuel n h1 h2 hf
    obtain ⟨f, rfl⟩ : ∃ f, fuel = f + 1 := ⟨fuel - 1, by omega⟩
    have h10 : 10 ≤ 10 ^ (k + 1) := by
      calc (10 : Nat) = 10 ^ 1 := (pow_one 10).symm
      _ ≤ 10 ^ (k + 1) := Nat.pow_le_pow_right (by omega) (by omega)
    rw [natDigitsRev, if_neg (by omega)]
    have hdiv1 : 10 ^ k ≤ n / 10 :=
      (Nat.le_div_iff_mul_le (by omega)).mpr (by rw [← pow_succ]; exact h1)
    have hdiv2 : n / 10 < 10 ^ (k + 1) :=
      (Nat.div_lt_iff_lt_mul (by omega)).mpr (by rw [← pow_succ]; exact h2)
    simp [ih f (n / 10) hdiv1 hdiv2 (by omega)]

/-- A six-digit confirmation draw yields a string of the required
CONF-then-six-digits shape. -/
theorem confString_matches (rand : Nat) (h1 : 100000 ≤ rand)
    (h2 : rand ≤ 999999) : matchesConf (confString rand) = true := by
  have hdata : (confString rand).data = "CONF-".data ++ (natDigitsRev (rand + 1) rand).reverse := rfl
  have hlen : (natDigitsRev (rand + 1) rand).length = 6 := by
    have := natDigitsRev_length 5 (rand + 1) rand (by omega) (by norm_num; omega) (by omega)
    simpa using this
  have htake : (confString rand).data.take 5 = "CONF-".data := by rw [hdata]; rfl
  have hdrop : (confString rand).data.drop 5 = (natDigitsRev (rand + 1) rand).reverse := by
    rw [hdata]; rfl
  have hall : ((natDigitsRev (rand + 1) rand).reverse).all Char.isDigit = true :=
    List.all_eq_true.mpr (fun c hc =>
      natDigitsRev_all_digits (rand + 1) rand c (List.mem_reverse.mp hc))
  unfold matchesConf
  rw [htake, hdrop]
  simp [hlen, hall]

/-- A successful database-level booking always carries the confirmation
string built from the random draw. -/
theorem db_create_booking_success_conf (b : BookingInput) (rand : Nat)
    (db : DB)
    (hs : (TravelDatabase.create_booking b rand db).1.success = true) :
    (TravelDatabase.create_booking b rand db).1.confirmation_number =
      some (confString rand) := by
  unfold TravelDatabase.create_booking at hs ⊢
  cases hfind : lookupPrice db b with
  | none =>
    rw [hfind] at hs
    simp [BookingResult.success] at hs
  | some price =>
    rw [hfind] at hs
    cases hdup : db.bookings.any
        (fun r => r.confirmation_number == confString rand) with
    | true => simp [hdup, BookingResult.success] at hs
    | false => simp [hdup, BookingResult.confirmation_number]

/-- C9: every booking result with success true carries a confirmation
number of the exact shape CONF- followed by exactly six decimal digits
(given that the confirmation draw `random.randint(100000, 999999)` is in
its documented range). -/
theorem create_booking_confirmation_shape (bt : BookingType) (item_id : Int)
    (nm em : String) (sr : Option String) (rand : Nat) (db : DB)
    (h1 : 100000 ≤ rand) (h2 : rand ≤ 999999)
    (hs : (create_booking bt item_id nm em sr rand db).1.success = true) :
    ∃ c, (create_booking bt item_id nm em sr rand db).1.confirmation_number
          = some c ∧ matchesConf c = true := by
  by_cases hbt : bt = .attraction
  · subst hbt
    exact ⟨"CONF-123456", rfl, by decide⟩
  · have hcb : create_booking bt item_id nm em sr rand db =
        TravelDatabase.create_booking
          { booking_type := bt, item_id := item_id, customer_name := nm,
            customer_email := em, special_requests := sr } rand db := by
      unfold create_booking
      rw [if_neg hbt]
    rw [hcb] at hs ⊢
    exact ⟨confString rand, db_create_booking_success_conf _ rand db hs,
           confString_matches rand h1 h2⟩

/-- Witness for C9: a successful flight booking against a one-flight
database with draw 123456. -/
theorem create_booking_confirmation_shape_witness :
    (100000 ≤ 123456 ∧ 123456 ≤ 999999 ∧
      (create_booking .flight 1 "Jane Doe" "jane@example.com" none 123456
          Examples.oneFlightDB).1.success = true) ∧
    ∃ c, (create_booking .flight 1 "Jane Doe" "jane@example.com" none 123456
            Examples.oneFlightDB).1.confirmation_number = some c ∧
          matchesConf c = true :=
  ⟨⟨by omega, by omega, by decide⟩,
   create_booking_confirmation_shape .flight 1 "Jane Doe" "jane@example.com"
     none 123456 Examples.oneFlightDB (by omega) (by omega) (by decide)⟩

/-- The `should_use_tools` test on a log that just received one appended
message sees exactly that message. -/
theorem should_use_tools_append (l : List Message) (m : Message) :
    LG.should_use_tools (l ++ [m]) = truthy m.tool_calls := by
  simp [LG.should_use_tools]

/-- The hybrid booker with a failed freshness guard returns the corrective
message, for every oracle. -/
theorem booker_node_guard_failed (oracle : List Message → OracleReply)
    (ms : List Message) (h : Hybrid.hasRecentOrch ms = false) :
    Hybrid.booker_node oracle ms = [Hybrid.correctiveMessage] := by
  simp [Hybrid.booker_node, h]

/-- C1: whenever none of the last 8 messages was produced by
task_orchestrator, the hybrid booker appends exactly the single corrective
message, whatever the reasoning oracle would answer (so the oracle is not
consulted and no tool call is emitted), and the router then returns
control to the orchestrator node; conversely, a message carrying tool
calls can only be emitted when the freshness window does contain an
orchestrator-produced message. -/
theorem booker_freshness_guard (msgs : List Message)
    (h : Hybrid.hasRecentOrch msgs = false) :
    (∀ oracle, Hybrid.booker_node oracle msgs = [Hybrid.correctiveMessage])
    ∧ truthy Hybrid.correctiveMessage.tool_calls = false
    ∧ (∀ oracle, Hybrid.nextNode .booker
        { messages := msgs ++ Hybrid.booker_node oracle msgs,
          next_agent := "booker" } = .task)
    ∧ (∀ (oracle : List Message → OracleReply) (ms : List Message)
         (m : Message), m ∈ Hybrid.booker_node oracle ms →
         truthy m.tool_calls = true → Hybrid.hasRecentOrch ms = true) := by
  refine ⟨fun oracle => booker_node_guard_failed oracle msgs h, rfl, ?_, ?_⟩
  · intro oracle
    rw [booker_node_guard_failed oracle msgs h]
    simp [Hybrid.nextNode, should_use_tools_append, Hybrid.correctiveMessage,
      truthy]
  · intro oracle ms m hm ht
    cases hro : Hybrid.hasRecentOrch ms with
    | true => rfl
    | false =>
      rw [booker_node_guard_failed oracle ms hro] at hm
      simp at hm
      subst hm
      simp [Hybrid.correctiveMessage, truthy] at ht

/-- Witness for C1: a log with no orchestrator message forces the
corrective message against a concrete tool-hungry oracle. -/
theorem booker_freshness_guard_witness :
    Hybrid.hasRecentOrch Examples.msgsNoOrch = false ∧
    Hybrid.booker_node Examples.bookerOracle3 Examples.msgsNoOrch =
      [Hybrid.correctiveMessage] :=
  ⟨by decide,
   (booker_freshness_guard Examples.msgsNoOrch (by decide)).1
     Examples.bookerOracle3⟩

/-- C2 (evaluation of the code at the failing input): on a reply with
three tool calls after a fresh orchestrator instruction, the hybrid booker
appends one message whose content carries the truncation note but whose
tool_calls attribute holds the bare first call — the assignment
`response.tool_calls = calls[0]`, not a one-element list. The router sends
this message to the tool node (the bare dict is truthy), where iterating
it raises a TypeError: no tool call is executed at all, in particular not
the first one. -/
theorem booker_single_call_truncation_bug :
    Hybrid.booker_node Examples.bookerOracle3 Examples.msgsWithOrch
      = [Examples.truncatedMsg]
    ∧ Examples.truncatedMsg.tool_calls = .single Examples.tc1
    ∧ LG.should_use_tools (Examples.msgsWithOrch ++ [Examples.truncatedMsg])
      = true
    ∧ LG.tool_node Examples.runTool0
        { messages := Examples.msgsWithOrch ++ [Examples.truncatedMsg],
          next_agent := "booker" }
      = .error "TypeError: string indices must be integers" :=
  ⟨rfl, rfl, rfl, rfl⟩

/-- From END the engine takes no step: the state and step counter are
returned unchanged. -/
theorem runAux_end (o : LG.Oracles) (fuel : Nat) (s : GState) (steps : Nat) :
    LG.runAux o fuel .END s steps = .done s steps := by
  cases fuel <;> rfl

/-- With no fuel left at a non-terminal node, the engine raises the
step-budget error. -/
theorem runAux_zero (o : LG.Oracles) (n : LG.Node) (s : GState)
    (steps : Nat) (hn : n ≠ .END) :
    LG.runAux o 0 n s steps = .failed .stepBudget steps := by
  cases n <;> first | rfl | exact absurd rfl hn

/-- One engine step at a non-terminal node: execute it, abort on its
exception, else continue on the routed next node. -/
theorem runAux_step (o : LG.Oracles) (fuel : Nat) (n : LG.Node) (s : GState)
    (steps : Nat) (hn : n ≠ .END) :
    LG.runAux o (fuel + 1) n s steps =
      match LG.execNode o n s with
      | .error e => .failed (.nodeException e) steps
      | .ok s' => LG.runAux o fuel (LG.nextNode n s') s' (steps + 1) := by
  cases n <;> first | rfl | exact absurd rfl hn

/-- C4 counterexample: with an orchestrator oracle whose reply fails
structured-output parsing on exactly the initial prompt — and parses into
a valid decision on every other input, so that a single retry with any
corrective prompt would have succeeded — the engine neither retries nor
produces a dedicated delegation-parse-error: the run aborts immediately
with the raw exception text propagated from the parse, after zero
completed steps. -/
theorem task_parse_failure_no_retry_cex :
    LG.run Examples.failingOracles 50 "plan a trip"
      = .failed (.nodeException "Invalid json output") 0
    ∧ Examples.failingOracles.task
        [Message.sys TASKER_CONT_PROMPT,
         Message.human "please emit valid TaskDelegation json"]
      = .ok Examples.dDone :=
  ⟨rfl, rfl⟩

/-- C4 (amended): the orchestrator node performs no retry and no error
translation: its outcome is determined by the single oracle invocation on
the prompted log, a parse failure propagates verbatim and aborts the run
as a node exception, and on success the stored next_agent is exactly the
validated decision's literal from the closed set, never a guess. -/
theorem task_parse_failure_handling (o : LG.Oracles) (s : GState) :
    (∀ e, o.task (Message.sys (taskPromptFor s.messages) :: s.messages)
        = .error e → LG.task_node o s = .error e)
    ∧ (∀ s', LG.task_node o s = .ok s' →
        ∃ d, o.task (Message.sys (taskPromptFor s.messages) :: s.messages)
            = .ok d
          ∧ s'.next_agent = d.next_agent.toStr
          ∧ (s'.next_agent = "search" ∨ s'.next_agent = "booker"
              ∨ s'.next_agent = "end"))
    ∧ (∀ e fuel steps,
        o.task (Message.sys (taskPromptFor s.messages) :: s.messages)
          = .error e →
        LG.runAux o (fuel + 1) .task s steps
          = .failed (.nodeException e) steps) := by
  refine ⟨?_, ?_, ?_⟩
  · intro e he
    simp [LG.task_node, he]
  · intro s' hok
    unfold LG.task_node at hok
    cases ho : o.task (Message.sys (taskPromptFor s.messages) :: s.messages) with
    | error e => rw [ho] at hok; cases hok
    | ok d =>
      rw [ho] at hok
      refine ⟨d, rfl, ?_, ?_⟩
      · cases hok; rfl
      · cases hok
        cases d.next_agent <;> simp [NextAgent.toStr]
  · intro e fuel steps he
    rw [runAux_step o fuel .task s steps (by simp)]
    simp [LG.execNode, LG.task_node, he]

/-- Witness for C4 (amended): the error-propagation clause applied to the
concrete failing oracle at the initial state. -/
theorem task_parse_failure_handling_witness :
    LG.task_node Examples.failingOracles
      { messages := [Message.human "plan a trip"], next_agent := "end" }
      = .error "Invalid json output" :=
  (task_parse_failure_handling Examples.failingOracles
    { messages := [Message.human "plan a trip"], next_agent := "end" }).1
    "Invalid json output" rfl

/-- Routing from `task` goes to the search worker whenever the stored
decision literal is `search`. -/
theorem nextNode_task_search (msgs : List Message) :
    LG.nextNode .task { messages := msgs, next_agent := "search" } = .search := rfl

/-- Under an orchestrator oracle that always decides `search`, the
terminal node is unreachable and the engine consumes its entire fuel
budget, failing with the step-budget error after exactly `fuel` further
steps. The side invariant says a tool node is only ever entered behind a
list-shaped latest message. -/
theorem always_search_consumes_budget (o : LG.Oracles)
    (h : ∀ ms, ∃ d, o.task ms = .ok d ∧ d.next_agent = .search) :
    ∀ fuel (n : LG.Node) (s : GState) steps, n ≠ .END →
      ((n = .search_tools ∨ n = .booker_tools) →
        ∃ m cs, s.messages.getLast? = some m ∧ m.tool_calls = .list cs) →
      LG.runAux o fuel n s steps = .failed .stepBudget (steps + fuel) := by
  intro fuel
  induction fuel with
  | zero =>
    intro n s steps hn _
    rw [runAux_zero o n s steps hn, Nat.add_zero]
  | succ fuel ih =>
    intro n s steps hn hinv
    rw [runAux_step o fuel n s steps hn,
        show steps + (fuel + 1) = (steps + 1) + fuel by omega]
    cases n with
    | END => exact absurd rfl hn
    | task =>
      obtain ⟨d, hd, hds⟩ :=
        h (Message.sys (taskPromptFor s.messages) :: s.messages)
      have hnext : ∀ msgs2 : List Message,
          LG.nextNode .task { messages := msgs2, next_agent := d.next_agent.toStr }
            = .search := by
        intro msgs2
        rw [hds]
        rfl
      simp only [LG.execNode, LG.task_node, hd, hnext]
      exact ih .search _ (steps + 1) (by simp) (by simp)
    | search =>
      obtain ⟨r, hr⟩ : ∃ r, LG.search_node o s =
          { s with messages := s.messages ++ [replyMessage r] } := ⟨_, rfl⟩
      simp only [LG.execNode, hr]
      cases htc : truthy (replyMessage r).tool_calls with
      | true =>
        have hroute : LG.nextNode .search
            { s with messages := s.messages ++ [replyMessage r] }
              = .search_tools := by
          simp [LG.nextNode, should_use_tools_append, htc]
        rw [hroute]
        refine ih .search_tools _ (steps + 1) (by simp) ?_
        intro _
        exact ⟨replyMessage r, r.tool_calls, by simp, rfl⟩
      | false =>
        have hroute : LG.nextNode .search
            { s with messages := s.messages ++ [replyMessage r] } = .task := by
          simp [LG.nextNode, should_use_tools_append, htc]
        rw [hroute]
        exact ih .task _ (steps + 1) (by simp) (by simp)
    | booker =>
      obtain ⟨r, hr⟩ : ∃ r, LG.booker_node o s =
          { s with messages := s.messages ++ [replyMessage r] } := ⟨_, rfl⟩
      simp only [LG.execNode, hr]
      cases htc : truthy (replyMessage r).tool_calls with
      | true =>
        have hroute : LG.nextNode .booker
            { s with messages := s.messages ++ [replyMessage r] }
              = .booker_tools := by
          simp [LG.nextNode, should_use_tools_append, htc]
        rw [hroute]
        refine ih .booker_tools _ (steps + 1) (by simp) ?_
        intro _
        exact ⟨replyMessage r, r.tool_calls, by simp, rfl⟩
      | false =>
        have hroute : LG.nextNode .booker
            { s with messages := s.messages ++ [replyMessage r] } = .task := by
          simp [LG.nextNode, should_use_tools_append, htc]
        rw [hroute]
        exact ih .task _ (steps + 1) (by simp) (by simp)
    | search_tools =>
      obtain ⟨m, cs, hlast, hcs⟩ := hinv (Or.inl rfl)
      simp only [LG.execNode, LG.tool_node, hlast, hcs]
      exact ih .search _ (steps + 1) (by simp) (by simp)
    | booker_tools =>
      obtain ⟨m, cs, hlast, hcs⟩ := hinv (Or.inr rfl)
      simp only [LG.execNode, LG.tool_node, hlast, hcs]
      exact ih .booker _ (steps + 1) (by simp) (by simp)

/-- C6: every run whose orchestrator oracle always decides
next_agent = search aborts with the distinct step-budget error after
exactly the 50 configured steps; the fuel-indexed engine makes unbounded
looping impossible by construction. -/
theorem always_search_hits_step_budget (o : LG.Oracles)
    (h : ∀ ms, ∃ d, o.task ms = .ok d ∧ d.next_agent = .search)
    (q : String) :
    LG.run o 50 q = .failed .stepBudget 50 := by
  have hb := always_search_consumes_budget o h 50 .task
    { messages := [Message.human q], next_agent := "end" } 0 (by simp) (by simp)
  simpa [LG.run] using hb

/-- Witness for C6 with a concrete always-search oracle family. -/
theorem always_search_hits_step_budget_witness :
    LG.run Examples.searchOracles 50 "plan a trip" = .failed .stepBudget 50 :=
  always_search_hits_step_budget Examples.searchOracles
    (fun _ => ⟨Examples.dSearch, rfl, rfl⟩) "plan a trip"

/-- Every node execution that returns a state extends the message log by a
(possibly empty) suffix. -/
theorem execNode_append (o : LG.Oracles) (n : LG.Node) (s s' : GState)
    (h : LG.execNode o n s = .ok s') :
    ∃ t, s'.messages = s.messages ++ t := by
  cases n with
  | task =>
    simp only [LG.execNode, LG.task_node] at h
    cases ho : o.task (Message.sys (taskPromptFor s.messages) :: s.messages) with
    | error e => rw [ho] at h; cases h
    | ok d =>
      rw [ho] at h
      injection h with h
      rw [← h]
      exact ⟨_, rfl⟩
  | search =>
    simp only [LG.execNode] at h
    injection h with h
    obtain ⟨r, hr⟩ : ∃ r, LG.search_node o s =
        { s with messages := s.messages ++ [replyMessage r] } := ⟨_, rfl⟩
    rw [← h, hr]
    exact ⟨[replyMessage r], rfl⟩
  | booker =>
    simp only [LG.execNode] at h
    injection h with h
    obtain ⟨r, hr⟩ : ∃ r, LG.booker_node o s =
        { s with messages := s.messages ++ [replyMessage r] } := ⟨_, rfl⟩
    rw [← h, hr]
    exact ⟨[replyMessage r], rfl⟩
  | search_tools =>
    simp only [LG.execNode, LG.tool_node] at h
    cases hlast : s.messages.getLast? with
    | none => simp only [hlast] at h; cases h
    | some m =>
      simp only [hlast] at h
      cases hcs : m.tool_calls with
      | single c => simp only [hcs] at h; cases h
      | list cs =>
        simp only [hcs] at h
        injection h with h
        rw [← h]
        exact ⟨_, rfl⟩
  | booker_tools =>
    simp only [LG.execNode, LG.tool_node] at h
    cases hlast : s.messages.getLast? with
    | none => simp only [hlast] at h; cases h
    | some m =>
      simp only [hlast] at h
      cases hcs : m.tool_calls with
      | single c => simp only [hcs] at h; cases h
      | list cs =>
        simp only [hcs] at h
        injection h with h
        rw [← h]
        exact ⟨_, rfl⟩
  | END =>
    simp only [LG.execNode] at h
    injection h with h
    rw [← h]
    exact ⟨[], (List.append_nil _).symm⟩

/-- Every run that completes returns a final log that extends the starting
log. -/
theorem runAux_done_append (o : LG.Oracles) :
    ∀ fuel (n : LG.Node) (s : GState) steps (s' : GState) steps',
      LG.runAux o fuel n s steps = .done s' steps' →
      ∃ t, s'.messages = s.messages ++ t := by
  intro fuel
  induction fuel with
  | zero =>
    intro n s steps s' steps' h
    by_cases hn : n = .END
    · subst hn
      rw [runAux_end] at h
      cases h
      exact ⟨[], (List.append_nil _).symm⟩
    · rw [runAux_zero o n s steps hn] at h
      cases h
  | succ fuel ih =>
    intro n s steps s' steps' h
    by_cases hn : n = .END
    · subst hn
      rw [runAux_end] at h
      cases h
      exact ⟨[], (List.append_nil _).symm⟩
    · rw [runAux_step o fuel n s steps hn] at h
      cases he : LG.execNode o n s with
      | error e => rw [he] at h; cases h
      | ok s1 =>
        rw [he] at h
        obtain ⟨t1, ht1⟩ := execNode_append o n s s1 he
        obtain ⟨t2, ht2⟩ := ih _ _ _ _ _ h
        exact ⟨t1 ++ t2, by rw [ht2, ht1, List.append_assoc]⟩

/-- C7: the message log is append-only: each executed node extends the log
by a suffix (its length never decreases and no earlier message is removed
or altered), each completed run returns a log extending the initial one,
and from the END state the engine performs no node execution and appends
nothing. -/
theorem log_append_only (o : LG.Oracles) :
    (∀ (n : LG.Node) (s s' : GState), LG.execNode o n s = .ok s' →
      ∃ t, s'.messages = s.messages ++ t)
    ∧ (∀ fuel (n : LG.Node) (s : GState) steps (s' : GState) steps',
        LG.runAux o fuel n s steps = .done s' steps' →
        ∃ t, s'.messages = s.messages ++ t)
    ∧ (∀ fuel (s : GState) steps,
        LG.runAux o fuel .END s steps = .done s steps) :=
  ⟨fun n s s' h => execNode_append o n s s' h,
   fun fuel n s steps s' steps' h => runAux_done_append o fuel n s steps s' steps' h,
   fun fuel s steps => runAux_end o fuel s steps⟩

/-- Witness for C7: one concrete search step extends the log. -/
theorem log_append_only_witness :
    ∃ t, (LG.search_node Examples.searchOracles Examples.stateNoCalls).messages
      = Examples.stateNoCalls.messages ++ t :=
  (log_append_only Examples.searchOracles).1 .search Examples.stateNoCalls
    (LG.search_node Examples.searchOracles Examples.stateNoCalls) rfl

/-- The tool-routing test holds exactly when the latest message exists and
its tool_calls attribute is truthy. -/
theorem should_use_tools_iff (msgs : List Message) :
    LG.should_use_tools msgs = true
      ↔ ∃ m, msgs.getLast? = some m ∧ truthy m.tool_calls = true := by
  unfold LG.should_use_tools
  cases h : msgs.getLast? <;> simp

/-- C8: the routing relation of the compiled graphs: `should_use_tools`
fires exactly when the latest message carries tool calls; in the langgraph
variant the search and booker workers go to their tool executors exactly
on that test and back to the orchestrator otherwise, while both tool
executors return to their workers unconditionally; in the hybrid variant
the booker edges are identical, and the hybrid search node only appends
messages without tool calls, so its unconditional search→task edge agrees
with the claimed relation on every reachable state. -/
theorem router_transitions :
    (∀ msgs, LG.should_use_tools msgs = true
        ↔ ∃ m, msgs.getLast? = some m ∧ truthy m.tool_calls = true)
    ∧ (∀ s : GState,
        LG.nextNode .search s
          = (if LG.should_use_tools s.messages then .search_tools else .task)
        ∧ LG.nextNode .booker s
          = (if LG.should_use_tools s.messages then .booker_tools else .task)
        ∧ LG.nextNode .search_tools s = .search
        ∧ LG.nextNode .booker_tools s = .booker)
    ∧ (∀ s : GState,
        Hybrid.nextNode .booker s
          = (if LG.should_use_tools s.messages then .booker_tools else .task)
        ∧ Hybrid.nextNode .booker_tools s = .booker)
    ∧ (∀ (searcher : String → String) (msgs ms : List Message),
        Hybrid.search_node searcher msgs = .ok ms →
        ∀ m ∈ ms, truthy m.tool_calls = false) := by
  refine ⟨should_use_tools_iff,
          fun s => ⟨rfl, rfl, rfl, rfl⟩,
          fun s => ⟨rfl, rfl⟩,
          fun searcher msgs ms h m hm => ?_⟩
  unfold Hybrid.search_node at h
  cases hlast : msgs.getLast? with
  | none => rw [hlast] at h; cases h
  | some m0 =>
    rw [hlast] at h
    injection h with h
    rw [← h] at hm
    simp at hm
    rw [hm]
    rfl

/-- Witness for C8: the tool-routing test at a state whose latest message
carries one tool call. -/
theorem router_transitions_witness :
    LG.should_use_tools Examples.stateWithCalls.messages = true :=
  (router_transitions.1 Examples.stateWithCalls.messages).mpr
    ⟨{ role := .assistant, content := "", mname := none,
       tool_calls := .list [Examples.tc1] }, by decide, rfl⟩

end VacationCore
